import Mathlib

/-!
Shallow embedding of the openzwave-adapter core (src/lib.rs): the identity
maps, the watcher registry with its guard, the notification dispatcher loop
body, and the adapter facade operations (fetch_values, send_values,
register_watch).  Driver-side objects (Controller, ValueID) are modelled as
records of the query results the code reads from them; lock health of each
shared structure is an explicit boolean (a `false` flag models a poisoned
lock, whose acquisition returns Err / panics on unwrap).  A thread panic is
modelled as `none`.
-/

/-- Phantom role tag for getter channels (taxonomy::services::Getter). -/
inductive Getter
deriving DecidableEq

/-- Phantom role tag for setter channels (taxonomy::services::Setter). -/
inductive Setter
deriving DecidableEq

/-- Phantom role tag for services (taxonomy::services::ServiceId). -/
inductive ServiceId
deriving DecidableEq

/-- Phantom role tag for adapters (taxonomy::services::AdapterId). -/
inductive AdapterId
deriving DecidableEq

/-- Taxonomy id: an opaque identifier tagged with a phantom role, derived
from a human-readable label (taxonomy::util::Id). -/
structure TaxId (Kind : Type) where
  id : String

instance {Kind : Type} : DecidableEq (TaxId Kind) := fun a b =>
  decidable_of_iff (a.id = b.id) (by cases a; cases b; simp)

/-- TaxId::new: derive the id from a label. -/
def TaxId.new {Kind : Type} (label : String) : TaxId Kind :=
  { id := label }

/-- Driver value genre (openzwave ValueGenre). -/
inductive ValueGenre
  | Basic
  | User
  | Config
  | System
  | Count
deriving DecidableEq

/-- Driver value native type (openzwave ValueType); only Bool is examined by
the adapter. -/
inductive ValueType
  | Bool
  | Byte
  | Decimal
  | Int
  | List
  | Schedule
  | Short
  | String
  | Button
  | Raw
deriving DecidableEq

/-- Driver command class (openzwave CommandClass); only SensorBinary is
distinguished by the adapter. -/
inductive CommandClass
  | SensorBinary
  | Other (code : Nat)
deriving DecidableEq

/-- Taxonomy channel kind; only the two kinds the adapter produces. -/
inductive ChannelKind
  | OpenClosed
  | Ready
deriving DecidableEq

/-- Taxonomy OpenClosed state. -/
inductive OpenClosed
  | Open
  | Closed
deriving DecidableEq

/-- Taxonomy value; only the variants the adapter produces. -/
inductive Value
  | OpenClosed (oc : OpenClosed)
  | Unit
deriving DecidableEq

/-- Driver controller handle; the adapter only queries get_home_id. -/
structure Controller where
  home_id : Nat
deriving DecidableEq

/-- Driver value handle (openzwave ValueID), modelled as the record of the
query results the adapter reads from it.  Equality is the driver's handle
equality. -/
structure ValueID where
  vid : Nat
  label : String
  genre : ValueGenre
  command_class : Option CommandClass
  vtype : ValueType
  read_only : Bool
  write_only : Bool
  is_set : Bool
  bool_val : Bool
  controller : Controller
deriving DecidableEq

/-- ValueID::as_bool: per the driver contract, reading as boolean succeeds
exactly on boolean-typed values. -/
def ValueID.as_bool (v : ValueID) : Option Bool :=
  if v.vtype = ValueType.Bool then some v.bool_val else none

/-- kind_from_value: classify a value into a channel kind from its command
class; None when the command class is unrecognized. -/
def kind_from_value (value : ValueID) : Option ChannelKind :=
  value.command_class.map (fun cc =>
    match cc with
    | CommandClass.SensorBinary => ChannelKind.OpenClosed
    | _ => ChannelKind.Ready)

/-- to_open_closed: translate a boolean reading into an OpenClosed value;
None when as_bool fails. -/
def to_open_closed (value : ValueID) : Option Value :=
  value.as_bool.map (fun val =>
    Value.OpenClosed (if val then OpenClosed.Open else OpenClosed.Closed))

instance {ε α : Type} [DecidableEq ε] [DecidableEq α] : DecidableEq (Except ε α) := fun a b =>
  match a, b with
  | Except.ok x, Except.ok y => decidable_of_iff (x = y) (by simp)
  | Except.error e, Except.error f => decidable_of_iff (e = f) (by simp)
  | Except.ok _, Except.error _ => isFalse (fun h => Except.noConfusion h)
  | Except.error _, Except.ok _ => isFalse (fun h => Except.noConfusion h)

/-- IdMap: append-only association list between taxonomy ids and driver
objects, behind a shared RwLock.  `healthy = false` models a poisoned lock:
every acquisition fails. -/
structure IdMap (Kind T : Type) where
  healthy : Bool
  map : List (TaxId Kind × T)
deriving DecidableEq

/-- IdMap::new. -/
def IdMap.new {Kind T : Type} : IdMap Kind T :=
  { healthy := true, map := [] }

/-- IdMap::push: append an association; Err(()) when the write lock cannot
be acquired (nothing is appended then). -/
def IdMap.push {Kind T : Type} (m : IdMap Kind T) (id : TaxId Kind) (ozw_object : T) :
    Except Unit (IdMap Kind T) :=
  if m.healthy then Except.ok { m with map := m.map ++ [(id, ozw_object)] }
  else Except.error ()

/-- IdMap::find_tax_id_from_ozw: linear scan for the first entry whose
driver object equals the needle. -/
def IdMap.find_tax_id_from_ozw {Kind T : Type} [DecidableEq T] (m : IdMap Kind T)
    (needle : T) : Except Unit (Option (TaxId Kind)) :=
  if m.healthy then
    Except.ok ((m.map.find? (fun p => decide (p.2 = needle))).map (fun p => p.1))
  else Except.error ()

/-- IdMap::find_ozw_from_tax_id: linear scan for the first entry whose
taxonomy id equals the needle. -/
def IdMap.find_ozw_from_tax_id {Kind T : Type} [DecidableEq T] (m : IdMap Kind T)
    (needle : TaxId Kind) : Except Unit (Option T) :=
  if m.healthy then
    Except.ok ((m.map.find? (fun p => decide (p.1 = needle))).map (fun p => p.2))
  else Except.error ()

/-- A subscriber channel allocation (the target of an
`Arc<Mutex<Box<ExtSender<WatchEvent>>>>`), named by an arena index.  A weak
reference to it upgrades exactly while some strong reference (a watchers-map
entry, once the registering call has returned) still exists. -/
abbrev SenderRef := Nat

/-- WatcherGuard: the revocation token; holds the key of the primary
watchers-map entry it removes on drop. -/
structure WatcherGuard where
  key : Nat
deriving DecidableEq

/-- Watchers: the registry.  `map` is the index-keyed table of strong
references; `getter_map` is the secondary index from getter id to weak
references. -/
structure Watchers where
  current_index : Nat
  map : List (Nat × SenderRef)
  getter_map : List (TaxId Getter × List SenderRef)
deriving DecidableEq

/-- Watchers::new. -/
def Watchers.new : Watchers :=
  { current_index := 0, map := [], getter_map := [] }

/-- A weak reference to allocation `a` upgrades exactly while some strong
reference (an index-keyed map entry) to it remains. -/
def Watchers.alive (w : Watchers) (a : SenderRef) : Bool :=
  w.map.any (fun p => decide (p.2 = a))

/-- HashMap::entry(tax_id).or_insert(Vec::new()).push(weak): append a weak
reference under the id, creating the entry if absent. -/
def upd_getter_map (gm : List (TaxId Getter × List SenderRef)) (tax_id : TaxId Getter)
    (a : SenderRef) : List (TaxId Getter × List SenderRef) :=
  match gm with
  | [] => [(tax_id, [a])]
  | (id, vec) :: rest =>
    if id = tax_id then (id, vec ++ [a]) :: rest
    else (id, vec) :: upd_getter_map rest tax_id a

/-- Watchers::push: insert the strong reference under the next sequential
index, append a weak reference under the getter id, return the guard. -/
def Watchers.push (w : Watchers) (tax_id : TaxId Getter) (watcher : SenderRef) :
    Watchers × WatcherGuard :=
  let index := w.current_index
  ({ current_index := index + 1,
     map := w.map ++ [(index, watcher)],
     getter_map := upd_getter_map w.getter_map tax_id watcher },
   { key := index })

/-- Watchers::get: resolve an index in the primary table. -/
def Watchers.get (w : Watchers) (index : Nat) : Option SenderRef :=
  (w.map.find? (fun p => decide (p.1 = index))).map (fun p => p.2)

/-- Lookup of the secondary index entry for an id. -/
def entry_of (gm : List (TaxId Getter × List SenderRef)) (tax_id : TaxId Getter) :
    Option (List SenderRef) :=
  (gm.find? (fun p => decide (p.1 = tax_id))).map (fun p => p.2)

/-- Watchers::get_from_tax_id: upgrade every weak reference registered under
the id, silently dropping dead ones; None when the entry is absent or the
resulting vector is empty. -/
def Watchers.get_from_tax_id (w : Watchers) (tax_id : TaxId Getter) :
    Option (List SenderRef) :=
  (entry_of w.getter_map tax_id).bind (fun vec =>
    let vec := vec.filter (fun a => w.alive a)
    if vec.length = 0 then none else some vec)

/-- WatcherGuard::drop: remove the index-keyed entry (synchronously, under
the map lock); the secondary index is not touched. -/
def WatcherGuard.drop (g : WatcherGuard) (w : Watchers) : Watchers :=
  { w with map := w.map.filter (fun p => decide (p.1 ≠ g.key)) }

/-- Taxonomy internal errors the adapter can produce. -/
inductive InternalError
  | NoSuchGetter (id : TaxId Getter)
  | NoSuchSetter (id : TaxId Setter)
deriving DecidableEq

/-- Taxonomy API error.  NotImplemented is modelled from the spec: the spec
requires a NotImplemented domain error for the write path; the source never
constructs any error there. -/
inductive TaxError
  | InternalError (e : InternalError)
  | NotImplemented
deriving DecidableEq

/-- Taxonomy range filter for watch requests; accepted but never examined
by the adapter, so modelled as opaque. -/
inductive Range
  | mk
deriving DecidableEq

/-- Observable calls the dispatcher and the facade make: registry-collaborator
calls, subscriber-channel sends, and acquisition/release of the watchers
mutex (the lock of interest in the value-changed path; its release point is
placed by Rust drop semantics, i.e. at scope exit, since shadowing a binding
does not drop the shadowed guard). -/
inductive Effect
  | addService (service : TaxId ServiceId) (adapter : TaxId AdapterId)
  | addGetter (id : TaxId Getter) (service : TaxId ServiceId) (adapter : TaxId AdapterId)
      (kind : ChannelKind)
  | addSetter (id : TaxId Setter) (service : TaxId ServiceId) (adapter : TaxId AdapterId)
      (kind : ChannelKind)
  | lockWatchers
  | unlockWatchers
  | send (watcher : SenderRef) (id : TaxId Getter) (value : Value)
deriving DecidableEq

/-- Driver notification stream events (openzwave ZWaveNotification). -/
inductive ZWaveNotification
  | ControllerReady (controller : Controller)
  | NodeNew (node : Nat)
  | NodeAdded (node : Nat)
  | NodeRemoved (node : Nat)
  | ValueAdded (value : ValueID)
  | ValueChanged (value : ValueID)
  | ValueRemoved (value : ValueID)
  | Generic (s : String)
  | Other
deriving DecidableEq

/-- The shared state the dispatcher thread and the facade operate on:
the three identity maps (each with its own lock health), the watchers
registry and the health of its outer mutex. -/
structure AdapterState where
  adapter_id : TaxId AdapterId
  controller_map : IdMap ServiceId Controller
  getter_map : IdMap Getter ValueID
  setter_map : IdMap Setter ValueID
  watchers_healthy : Bool
  watchers : Watchers
deriving DecidableEq

/-- One iteration of the notification-thread loop body for a single
notification.  `none` models a worker panic (an unwrap of a failed lock
acquisition); `some (st, effs)` is the updated state plus the observable
calls, in program order.  A `push` whose Result is ignored by the source
leaves the map unchanged on failure and the loop continues. -/
def processNotification (st : AdapterState) (n : ZWaveNotification) :
    Option (AdapterState × List Effect) :=
  match n with
  | ZWaveNotification.ControllerReady controller =>
    let service := "OpenZWave/" ++ toString controller.home_id
    let service_id : TaxId ServiceId := TaxId.new service
    let controller_map :=
      match st.controller_map.push service_id controller with
      | Except.ok m => m
      | Except.error _ => st.controller_map
    some ({ st with controller_map := controller_map },
      [Effect.addService service_id st.adapter_id])
  | ZWaveNotification.NodeNew _ => some (st, [])
  | ZWaveNotification.NodeAdded _ => some (st, [])
  | ZWaveNotification.NodeRemoved _ => some (st, [])
  | ZWaveNotification.ValueAdded value =>
    if value.genre ≠ ValueGenre.User then some (st, [])
    else
      let value_id := "OpenZWave/" ++ toString value.vid ++ " (" ++ value.label ++ ")"
      match st.controller_map.find_tax_id_from_ozw value.controller with
      | Except.error _ => none
      | Except.ok none => some (st, [])
      | Except.ok (some controller_id) =>
        let has_getter := !value.write_only
        let has_setter := !value.read_only
        match kind_from_value value with
        | none => some (st, [])
        | some kind =>
          let getter_part :=
            if has_getter then
              let getter_id : TaxId Getter := TaxId.new value_id
              let gm :=
                match st.getter_map.push getter_id value with
                | Except.ok m => m
                | Except.error _ => st.getter_map
              (gm, [Effect.addGetter getter_id controller_id st.adapter_id kind])
            else (st.getter_map, [])
          let setter_part :=
            if has_setter then
              let setter_id : TaxId Setter := TaxId.new value_id
              let sm :=
                match st.setter_map.push setter_id value with
                | Except.ok m => m
                | Except.error _ => st.setter_map
              (sm, [Effect.addSetter setter_id controller_id st.adapter_id kind])
            else (st.setter_map, [])
          some ({ st with getter_map := getter_part.1, setter_map := setter_part.1 },
            getter_part.2 ++ setter_part.2)
  | ZWaveNotification.ValueChanged value =>
    match value.vtype with
    | ValueType.Bool =>
      match st.getter_map.find_tax_id_from_ozw value with
      | Except.ok (some tax_id) =>
        if st.watchers_healthy then
          match st.watchers.get_from_tax_id tax_id with
          | none => some (st, [Effect.lockWatchers, Effect.unlockWatchers])
          | some senders =>
            let sends := senders.filterMap (fun sender =>
              (to_open_closed value).map (fun v => Effect.send sender tax_id v))
            some (st, Effect.lockWatchers :: (sends ++ [Effect.unlockWatchers]))
        else none
      | _ => some (st, [])
    | _ => some (st, [])
  | ZWaveNotification.ValueRemoved _ => some (st, [])
  | ZWaveNotification.Generic _ => some (st, [])
  | ZWaveNotification.Other => some (st, [])

/-- The per-id body of fetch_values: resolve the driver value of one getter
id and translate it.  `none` models the panic of the unwrap on a failed
lock acquisition. -/
def fetch_value_one (getter_map : IdMap Getter ValueID) (id : TaxId Getter) :
    Option (TaxId Getter × Except TaxError (Option Value)) :=
  match getter_map.find_ozw_from_tax_id id with
  | Except.error _ => none
  | Except.ok ozw_value =>
    let translated : Option (Option Value) := ozw_value.map (fun ozw_value =>
      if !ozw_value.is_set then none
      else
        match ozw_value.vtype with
        | ValueType.Bool => to_open_closed ozw_value
        | _ => some Value.Unit)
    let value_result : Except TaxError (Option Value) :=
      match translated with
      | some r => Except.ok r
      | none => Except.error (TaxError.InternalError (InternalError.NoSuchGetter id))
    some (id, value_result)

/-- Adapter::fetch_values: map every requested getter id to its per-id
result, in request order.  `none` models the panic of the unwrap when the
getter map lock cannot be acquired. -/
def fetch_values (getter_map : IdMap Getter ValueID) (ids : List (TaxId Getter)) :
    Option (List (TaxId Getter × Except TaxError (Option Value))) :=
  match ids with
  | [] => some []
  | id :: rest =>
    match fetch_value_one getter_map id with
    | none => none
    | some entry =>
      match fetch_values getter_map rest with
      | none => none
      | some entries => some (entry :: entries)

/-- Adapter::send_values: the body is a single panic (the unimplemented
macro), so the call never produces a result mapping; the panic is modelled
as none. -/
def send_values (_values : List (TaxId Setter × Value)) :
    Option (List (TaxId Setter × Except TaxError Unit)) :=
  none

/-- Adapter::register_watch: for each request, subscribe the channel under
the id (under the watchers mutex, released before anything else happens),
then, if the id resolves to a set boolean-typed driver value, push one
initial Enter event on the channel.  `none` models the panic of an unwrap
on a failed lock acquisition.  Returns the final watchers state, the
per-id results, and the channel sends in program order. -/
def register_watch (st : AdapterState) (values : List (TaxId Getter × Option Range))
    (sender : SenderRef) :
    Option (AdapterState × List (TaxId Getter × Except TaxError WatcherGuard) × List Effect) :=
  match values with
  | [] => some (st, [], [])
  | (id, _) :: rest =>
    if st.watchers_healthy then
      let pushed := st.watchers.push id sender
      let st1 := { st with watchers := pushed.1 }
      match st.getter_map.find_ozw_from_tax_id id with
      | Except.error _ => none
      | Except.ok ozw_value =>
        let effs :=
          match ozw_value with
          | some value =>
            if value.is_set && decide (value.vtype = ValueType.Bool) then
              match to_open_closed value with
              | some v => [Effect.send sender id v]
              | none => []
            else []
          | none => []
        match register_watch st1 rest sender with
        | none => none
        | some (stf, outs, effs2) =>
          some (stf, (id, Except.ok pushed.2) :: outs, effs ++ effs2)
    else none

/-- A subscription for `a` is recorded under `tax_id` when the secondary
index holds a weak reference to `a` under that id. -/
def Watchers.recorded (w : Watchers) (tax_id : TaxId Getter) (a : SenderRef) : Prop :=
  ∃ vec, entry_of w.getter_map tax_id = some vec ∧ a ∈ vec

/-- Example getter id used by concrete instances. -/
def g1 : TaxId Getter := TaxId.new "g"

/-- Example driver value: user genre, SensorBinary, boolean, read-only,
already set to true. -/
def v1 : ValueID :=
  { vid := 1, label := "d", genre := ValueGenre.User,
    command_class := some CommandClass.SensorBinary, vtype := ValueType.Bool,
    read_only := true, write_only := false, is_set := true, bool_val := true,
    controller := { home_id := 42 } }

/-- Example driver value whose command class the driver did not recognize. -/
def v_nocc : ValueID :=
  { v1 with command_class := none }

/-- Example driver value outside the user genre. -/
def v_sys : ValueID :=
  { v1 with genre := ValueGenre.System }

/-- Example adapter state: the controller and v1's getter are known, all
locks healthy, and one live watcher (allocation 7) subscribed under g1. -/
def st1 : AdapterState :=
  { adapter_id := TaxId.new "OpenZwave Adapter",
    controller_map :=
      { healthy := true, map := [(TaxId.new "OpenZWave/42", { home_id := 42 })] },
    getter_map := { healthy := true, map := [(g1, v1)] },
    setter_map := IdMap.new,
    watchers_healthy := true,
    watchers := { current_index := 1, map := [(0, 7)], getter_map := [(g1, [7])] } }

/-- Example adapter state whose controller-map lock is poisoned. -/
def st_bad_cm : AdapterState :=
  { st1 with controller_map := { healthy := false, map := [] } }

/-- Example adapter state whose getter-map lock is poisoned. -/
def st_bad_gm : AdapterState :=
  { st1 with getter_map := { healthy := false, map := [] } }

/-- Example adapter state whose watchers mutex is poisoned. -/
def st_bad_w : AdapterState :=
  { st1 with watchers_healthy := false }

/-- Example watchers state holding one live subscription of allocation 0
under logical id B. -/
def wB : Watchers :=
  (Watchers.new.push (TaxId.new "B") 0).1

/-- C1 as stated: in the dispatcher's value-changed handling, every channel
send occurs only after the watchers mutex has been released (the unlock
precedes every send in the observable order). -/
def claimC1 : Prop :=
  ∀ (st : AdapterState) (value : ValueID) (out : AdapterState × List Effect),
    processNotification st (ZWaveNotification.ValueChanged value) = some out →
    ∀ (i j : Nat) (watcher : SenderRef) (id : TaxId Getter) (v : Value),
      out.2[i]? = some Effect.unlockWatchers →
      out.2[j]? = some (Effect.send watcher id v) →
      i < j

/-- C2 as stated: after subscribing a channel under an id and dropping the
returned guard, if no other subscription previously registered under that id
is still live, a subsequent get_from_tax_id for that id returns None. -/
def claimC2 : Prop :=
  ∀ (w : Watchers) (tax_id : TaxId Getter) (channel : SenderRef),
    (∀ a ∈ (entry_of w.getter_map tax_id).getD [],
      ((w.push tax_id channel).2.drop (w.push tax_id channel).1).alive a = false) →
    ((w.push tax_id channel).2.drop (w.push tax_id channel).1).get_from_tax_id tax_id = none

/-- C3 as stated: for a pair pushed into a healthy IdMap, as long as no
entry with the same handle is pushed afterwards, both lookups return the
pair (no condition on what the map already contained). -/
def claimC3 : Prop :=
  ∀ (m : IdMap ServiceId Controller) (id : TaxId ServiceId) (handle : Controller)
    (rest : List (TaxId ServiceId × Controller)),
    m.healthy = true →
    (∀ p ∈ rest, p.2 ≠ handle) →
    (IdMap.mk true (m.map ++ (id, handle) :: rest)).find_ozw_from_tax_id id
        = Except.ok (some handle) ∧
    (IdMap.mk true (m.map ++ (id, handle) :: rest)).find_tax_id_from_ozw handle
        = Except.ok (some id)

/-- C5 as stated, at the variant the claim itself singles out: a lock
acquisition failure during the controller-ready identity-map insert
terminates the worker. -/
def claimC5 : Prop :=
  ∀ (st : AdapterState) (c : Controller),
    st.controller_map.healthy = false →
    processNotification st (ZWaveNotification.ControllerReady c) = none

/-- C8 as stated: a non-user-genre value produces no calls and no map
change; a user-genre, read-only, boolean value under a known controller
produces exactly one add-getter call and no add-setter call. -/
def claimC8 : Prop :=
  (∀ (st : AdapterState) (v : ValueID), v.genre ≠ ValueGenre.User →
    processNotification st (ZWaveNotification.ValueAdded v) = some (st, [])) ∧
  (∀ (st : AdapterState) (v : ValueID) (cid : TaxId ServiceId),
    v.genre = ValueGenre.User → v.read_only = true → v.write_only = false →
    v.vtype = ValueType.Bool →
    st.controller_map.find_tax_id_from_ozw v.controller = Except.ok (some cid) →
    ∃ st2 kind, processNotification st (ZWaveNotification.ValueAdded v)
      = some (st2, [Effect.addGetter
          (TaxId.new ("OpenZWave/" ++ toString v.vid ++ " (" ++ v.label ++ ")"))
          cid st.adapter_id kind]))

/-- C9 as stated: send_values returns a mapping in which every requested
setter id is paired with the NotImplemented domain error. -/
def claimC9 : Prop :=
  ∀ values : List (TaxId Setter × Value),
    ∃ out, send_values values = some out ∧
      ∀ p ∈ values, (p.1, Except.error TaxError.NotImplemented) ∈ out

/-- Helper: find? skips a prefix on which the predicate is false. -/
theorem find?_skips_false_front {α : Type} (l1 l2 : List α) (p : α → Bool)
    (h : ∀ x ∈ l1, p x = false) : (l1 ++ l2).find? p = l2.find? p := by
  induction l1 with
  | nil => rfl
  | cons a as ih =>
    rw [List.cons_append, List.find?_cons_of_neg _ (by simp [h a (List.mem_cons_self a as)])]
    exact ih (fun x hx => h x (List.mem_cons_of_mem a hx))

/-- C4: on a healthy IdMap containing no matching entry (in particular an
empty map), both lookups return Ok(None), never an error. -/
theorem C4_absent_lookups_ok {Kind T : Type} [DecidableEq T] (m : IdMap Kind T)
    (needle_ozw : T) (needle_id : TaxId Kind)
    (hh : m.healthy = true)
    (h1 : ∀ p ∈ m.map, p.2 ≠ needle_ozw)
    (h2 : ∀ p ∈ m.map, p.1 ≠ needle_id) :
    m.find_tax_id_from_ozw needle_ozw = Except.ok none ∧
    m.find_ozw_from_tax_id needle_id = Except.ok none := by
  constructor
  · have hf : m.map.find? (fun p => decide (p.2 = needle_ozw)) = none := by
      rw [List.find?_eq_none]
      intro p hp
      simp [h1 p hp]
    simp [IdMap.find_tax_id_from_ozw, hh, hf]
  · have hf : m.map.find? (fun p => decide (p.1 = needle_id)) = none := by
      rw [List.find?_eq_none]
      intro p hp
      simp [h2 p hp]
    simp [IdMap.find_ozw_from_tax_id, hh, hf]

/-- C4 witness: concrete healthy one-entry map, non-matching needles. -/
theorem C4_absent_lookups_ok_witness :
    (IdMap.mk true [(g1, v1)] : IdMap Getter ValueID).find_tax_id_from_ozw v_nocc
      = Except.ok none ∧
    (IdMap.mk true [(g1, v1)] : IdMap Getter ValueID).find_ozw_from_tax_id (TaxId.new "zz")
      = Except.ok none :=
  C4_absent_lookups_ok _ _ _ rfl (by decide) (by decide)

/-- C3 counterexample: a healthy map already holding (i, home 1); pushing
(i, home 2) satisfies the claim's hypothesis (no later entry shares the
handle), yet find_ozw_from_tax_id i returns the earlier handle home 1, not
home 2. -/
theorem C3_counterexample : ¬ claimC3 := by
  intro h
  have h2 := (h (IdMap.mk true [(TaxId.new "i", { home_id := 1 })])
      (TaxId.new "i") { home_id := 2 } [] rfl (by simp)).1
  exact absurd h2 (by decide)

/-- C3 amended: for a pair pushed into a healthy IdMap, both lookups return
the pair provided no entry inserted BEFORE it shares its id or its handle;
entries inserted afterwards (even with the same handle or id) never affect
these lookups, because the scan returns the first (oldest) match. -/
theorem C3_first_match_lookup {Kind T : Type} [DecidableEq T]
    (prior : List (TaxId Kind × T)) (id : TaxId Kind) (handle : T)
    (rest : List (TaxId Kind × T))
    (hid : ∀ p ∈ prior, p.1 ≠ id) (hhandle : ∀ p ∈ prior, p.2 ≠ handle) :
    (IdMap.mk true (prior ++ (id, handle) :: rest)).find_ozw_from_tax_id id
        = Except.ok (some handle) ∧
    (IdMap.mk true (prior ++ (id, handle) :: rest)).find_tax_id_from_ozw handle
        = Except.ok (some id) := by
  constructor
  · have hf : (prior ++ (id, handle) :: rest).find? (fun p => decide (p.1 = id))
        = some (id, handle) := by
      rw [find?_skips_false_front _ _ _ (fun p hp => by simp [hid p hp])]
      simp [List.find?_cons]
    simp [IdMap.find_ozw_from_tax_id, hf]
  · have hf : (prior ++ (id, handle) :: rest).find? (fun p => decide (p.2 = handle))
        = some (id, handle) := by
      rw [find?_skips_false_front _ _ _ (fun p hp => by simp [hhandle p hp])]
      simp [List.find?_cons]
    simp [IdMap.find_tax_id_from_ozw, hf]

/-- C3 witness: one unrelated prior entry, and a later entry reusing the
same handle, which does not disturb the lookups of the pushed pair. -/
theorem C3_first_match_lookup_witness :
    (IdMap.mk true ([(TaxId.new "a", { home_id := 5 })]
        ++ (TaxId.new "i", { home_id := 7 }) :: [(TaxId.new "x", { home_id := 7 })])
      : IdMap ServiceId Controller).find_ozw_from_tax_id (TaxId.new "i")
        = Except.ok (some { home_id := 7 }) ∧
    (IdMap.mk true ([(TaxId.new "a", { home_id := 5 })]
        ++ (TaxId.new "i", { home_id := 7 }) :: [(TaxId.new "x", { home_id := 7 })])
      : IdMap ServiceId Controller).find_tax_id_from_ozw { home_id := 7 }
        = Except.ok (some (TaxId.new "i")) :=
  C3_first_match_lookup _ _ _ _ (by decide) (by decide)

/-- C9 counterexample: even for the empty request mapping, send_values does
not return a mapping at all (the body is a panic), so no per-id
NotImplemented results exist. -/
theorem C9_counterexample : ¬ claimC9 := by
  intro h
  obtain ⟨out, hout, _⟩ := h []
  exact Option.noConfusion hout

/-- C9 amended: send_values never returns a result mapping; its body is the
unimplemented panic for every input. -/
theorem C9_send_values_diverges (values : List (TaxId Setter × Value)) :
    send_values values = none :=
  rfl

/-- C5 counterexample: with the controller-map lock poisoned, processing a
controller-ready notification does not terminate the worker: the failed
insert is silently discarded (the push Result is ignored by the source) and
the iteration completes, still forwarding the add_service call. -/
theorem C5_counterexample : ¬ claimC5 := by
  intro h
  exact absurd (h st_bad_cm { home_id := 42 } rfl) (by decide)

/-- C5 amended: only the dispatcher's unwrapped lock acquisitions terminate
the worker: the controller lookup in value-added (via unwrap) and the
watchers mutex in value-changed.  A lock failure in the controller-ready
insert is silently swallowed (the iteration completes, state unchanged,
add_service still forwarded), and a lock failure in the value-changed
getter lookup is swallowed too (the notification is skipped and the loop
continues). -/
theorem C5_lock_failure_behaviour :
    (∀ (st : AdapterState) (c : Controller), st.controller_map.healthy = false →
      processNotification st (ZWaveNotification.ControllerReady c)
        = some (st, [Effect.addService (TaxId.new ("OpenZWave/" ++ toString c.home_id))
            st.adapter_id])) ∧
    (∀ (st : AdapterState) (v : ValueID), v.genre = ValueGenre.User →
      st.controller_map.healthy = false →
      processNotification st (ZWaveNotification.ValueAdded v) = none) ∧
    (∀ (st : AdapterState) (v : ValueID), v.vtype = ValueType.Bool →
      st.getter_map.healthy = false →
      processNotification st (ZWaveNotification.ValueChanged v) = some (st, [])) ∧
    (∀ (st : AdapterState) (v : ValueID) (tid : TaxId Getter),
      v.vtype = ValueType.Bool →
      st.getter_map.find_tax_id_from_ozw v = Except.ok (some tid) →
      st.watchers_healthy = false →
      processNotification st (ZWaveNotification.ValueChanged v) = none) := by
  refine ⟨?_, ?_, ?_, ?_⟩
  · intro st c hcm
    simp [processNotification, IdMap.push, hcm]
  · intro st v hg hcm
    simp [processNotification, IdMap.find_tax_id_from_ozw, hg, hcm]
  · intro st v hvt hgm
    simp only [processNotification]
    rw [hvt]
    simp [IdMap.find_tax_id_from_ozw, hgm]
  · intro st v tid hvt hfind hw
    simp only [processNotification]
    rw [hvt, hfind]
    simp [hw]

/-- C5 witness: concrete instances of all four conjuncts. -/
theorem C5_lock_failure_behaviour_witness :
    (processNotification st_bad_cm (ZWaveNotification.ControllerReady { home_id := 42 })
      = some (st_bad_cm, [Effect.addService (TaxId.new ("OpenZWave/" ++ toString (42 : Nat)))
          st_bad_cm.adapter_id])) ∧
    (processNotification st_bad_cm (ZWaveNotification.ValueAdded v1) = none) ∧
    (processNotification st_bad_gm (ZWaveNotification.ValueChanged v1) = some (st_bad_gm, [])) ∧
    (processNotification st_bad_w (ZWaveNotification.ValueChanged v1) = none) :=
  ⟨C5_lock_failure_behaviour.1 st_bad_cm { home_id := 42 } rfl,
   C5_lock_failure_behaviour.2.1 st_bad_cm v1 rfl rfl,
   C5_lock_failure_behaviour.2.2.1 st_bad_gm v1 rfl rfl,
   C5_lock_failure_behaviour.2.2.2 st_bad_w v1 g1 rfl (by decide) rfl⟩

/-- C8 counterexample: a user-genre, read-only, boolean value under a known
controller whose command class the driver did not recognize is skipped
entirely: no add-getter call occurs, contradicting the claim's "exactly
one". -/
theorem C8_counterexample : ¬ claimC8 := by
  intro h
  obtain ⟨st2, kind, heq⟩ := h.2 st1 v_nocc (TaxId.new "OpenZWave/42")
    rfl rfl rfl rfl (by decide)
  rw [show processNotification st1 (ZWaveNotification.ValueAdded v_nocc) = some (st1, [])
    from by decide] at heq
  simp at heq

/-- C8 amended: a non-user-genre value produces no registry call and no map
change; a user-genre, read-only, boolean value under a known controller
WHOSE COMMAND CLASS IS RECOGNIZED produces exactly one add-getter call
(with the kind classified from the command class) and no add-setter call. -/
theorem C8_value_added_calls :
    (∀ (st : AdapterState) (v : ValueID), v.genre ≠ ValueGenre.User →
      processNotification st (ZWaveNotification.ValueAdded v) = some (st, [])) ∧
    (∀ (st : AdapterState) (v : ValueID) (cid : TaxId ServiceId) (cc : CommandClass),
      v.genre = ValueGenre.User → v.read_only = true → v.write_only = false →
      v.vtype = ValueType.Bool → v.command_class = some cc →
      st.controller_map.find_tax_id_from_ozw v.controller = Except.ok (some cid) →
      ∃ gm2, processNotification st (ZWaveNotification.ValueAdded v)
        = some ({ st with getter_map := gm2 },
            [Effect.addGetter
              (TaxId.new ("OpenZWave/" ++ toString v.vid ++ " (" ++ v.label ++ ")"))
              cid st.adapter_id
              (match cc with
               | CommandClass.SensorBinary => ChannelKind.OpenClosed
               | _ => ChannelKind.Ready)])) := by
  constructor
  · intro st v hg
    simp [processNotification, hg]
  · intro st v cid cc hg hro hwo _hvt hcc hfind
    simp only [processNotification]
    rw [hfind]
    simp [hg, kind_from_value, hcc, hro, hwo]

/-- C8 witness: concrete instances of both conjuncts (a system-genre value,
and v1 with its recognized SensorBinary command class). -/
theorem C8_value_added_calls_witness :
    (processNotification st1 (ZWaveNotification.ValueAdded v_sys) = some (st1, [])) ∧
    (∃ gm2, processNotification st1 (ZWaveNotification.ValueAdded v1)
      = some ({ st1 with getter_map := gm2 },
          [Effect.addGetter
            (TaxId.new ("OpenZWave/" ++ toString v1.vid ++ " (" ++ v1.label ++ ")"))
            (TaxId.new "OpenZWave/42") st1.adapter_id ChannelKind.OpenClosed])) :=
  ⟨C8_value_added_calls.1 st1 v_sys (by decide),
   C8_value_added_calls.2 st1 v1 (TaxId.new "OpenZWave/42") CommandClass.SensorBinary
     rfl rfl rfl rfl rfl (by decide)⟩

/-- C1 counterexample: in a state with one live watcher, the value-changed
effects are lock, send, unlock in that order: the watchers mutex, though its
binding is shadowed, is released only at the end of the match arm, so the
send at position 1 precedes the unlock at position 2, contradicting the
claim that every send follows the release. -/
theorem C1_counterexample : ¬ claimC1 := by
  intro h
  have h2 := h st1 v1
    (st1, [Effect.lockWatchers, Effect.send 7 g1 (Value.OpenClosed OpenClosed.Open),
      Effect.unlockWatchers])
    (by decide) 2 1 7 g1 (Value.OpenClosed OpenClosed.Open) rfl rfl
  omega

/-- C1 amended: in the dispatcher's value-changed handling, every channel
send happens WHILE the watchers mutex is held: the observable order is
either empty or lock, then only sends, then unlock last. -/
theorem C1_sends_while_lock_held (st : AdapterState) (value : ValueID)
    (out : AdapterState × List Effect)
    (h : processNotification st (ZWaveNotification.ValueChanged value) = some out) :
    out.2 = [] ∨
    ∃ mids, out.2 = Effect.lockWatchers :: (mids ++ [Effect.unlockWatchers]) ∧
      ∀ e ∈ mids, ∃ watcher id v, e = Effect.send watcher id v := by
  simp only [processNotification] at h
  split at h
  · split at h
    · split at h
      · split at h
        · obtain rfl : (st, [Effect.lockWatchers, Effect.unlockWatchers]) = out :=
            Option.some.inj h
          right
          exact ⟨[], rfl, by simp⟩
        · rename_i senders _
          obtain rfl : _ = out := Option.some.inj h
          right
          refine ⟨_, rfl, ?_⟩
          intro e he
          obtain ⟨s, _, hs⟩ := List.mem_filterMap.mp he
          obtain ⟨v, _, rfl⟩ := Option.map_eq_some'.mp hs
          exact ⟨s, _, v, rfl⟩
      · exact Option.noConfusion h
    · obtain rfl : (st, []) = out := Option.some.inj h
      left
      rfl
  · obtain rfl : (st, []) = out := Option.some.inj h
    left
    rfl

/-- C1 witness: the concrete one-watcher state. -/
theorem C1_sends_while_lock_held_witness :
    ([Effect.lockWatchers, Effect.send 7 g1 (Value.OpenClosed OpenClosed.Open),
        Effect.unlockWatchers] = ([] : List Effect)) ∨
    ∃ mids, [Effect.lockWatchers, Effect.send 7 g1 (Value.OpenClosed OpenClosed.Open),
        Effect.unlockWatchers] = Effect.lockWatchers :: (mids ++ [Effect.unlockWatchers]) ∧
      ∀ e ∈ mids, ∃ watcher id v, e = Effect.send watcher id v :=
  C1_sends_while_lock_held st1 v1
    (st1, [Effect.lockWatchers, Effect.send 7 g1 (Value.OpenClosed OpenClosed.Open),
      Effect.unlockWatchers])
    (by decide)

/-- Helper: on a healthy getter map, the per-id fetch body returns a pair
for the id whose result follows the translation cases. -/
theorem fetch_value_one_cases (gm : IdMap Getter ValueID) (id : TaxId Getter)
    (hh : gm.healthy = true) :
    ∃ r, fetch_value_one gm id = some (id, r) ∧
      ((gm.find_ozw_from_tax_id id = Except.ok none →
          r = Except.error (TaxError.InternalError (InternalError.NoSuchGetter id))) ∧
       (∀ v, gm.find_ozw_from_tax_id id = Except.ok (some v) → v.is_set = false →
          r = Except.ok none) ∧
       (∀ v, gm.find_ozw_from_tax_id id = Except.ok (some v) → v.is_set = true →
          v.vtype = ValueType.Bool → r = Except.ok (to_open_closed v)) ∧
       (∀ v, gm.find_ozw_from_tax_id id = Except.ok (some v) → v.is_set = true →
          v.vtype ≠ ValueType.Bool → r = Except.ok (some Value.Unit))) := by
  obtain ⟨oz, hoz⟩ : ∃ oz, gm.find_ozw_from_tax_id id = Except.ok oz := by
    simp [IdMap.find_ozw_from_tax_id, hh]
  cases oz with
  | none =>
    refine ⟨Except.error (TaxError.InternalError (InternalError.NoSuchGetter id)),
      ?_, ?_, ?_, ?_, ?_⟩
    · simp only [fetch_value_one]
      rw [hoz]
      rfl
    · intro _
      rfl
    · intro v hsome _
      rw [hoz] at hsome
      exact Option.noConfusion (Except.ok.inj hsome)
    · intro v hsome _ _
      rw [hoz] at hsome
      exact Option.noConfusion (Except.ok.inj hsome)
    · intro v hsome _ _
      rw [hoz] at hsome
      exact Option.noConfusion (Except.ok.inj hsome)
  | some v0 =>
    refine ⟨Except.ok (if !v0.is_set then none else
        match v0.vtype with
        | ValueType.Bool => to_open_closed v0
        | _ => some Value.Unit), ?_, ?_, ?_, ?_, ?_⟩
    · simp only [fetch_value_one]
      rw [hoz]
      rfl
    · intro hnone
      rw [hoz] at hnone
      exact Option.noConfusion (Except.ok.inj hnone)
    · intro v hsome hset
      rw [hoz] at hsome
      obtain rfl := Option.some.inj (Except.ok.inj hsome)
      simp [hset]
    · intro v hsome hset hvt
      rw [hoz] at hsome
      obtain rfl := Option.some.inj (Except.ok.inj hsome)
      simp [hset, hvt]
    · intro v hsome hset hvt
      rw [hoz] at hsome
      obtain rfl := Option.some.inj (Except.ok.inj hsome)
      rw [hset]
      cases hv : v0.vtype <;> simp_all

/-- C6: on a healthy getter map, fetch_values returns one result per
requested id, and each returned pair follows the claim's cases: unresolved
id yields the NoSuchGetter error, resolved-but-never-set yields Ok(None),
resolved set boolean yields the open/closed translation, and any other
resolved set type yields the Unit placeholder. -/
theorem C6_fetch_values_cases (gm : IdMap Getter ValueID) (ids : List (TaxId Getter))
    (hh : gm.healthy = true) :
    ∃ out, fetch_values gm ids = some out ∧ out.length = ids.length ∧
      ∀ id r, (id, r) ∈ out →
        ((gm.find_ozw_from_tax_id id = Except.ok none →
            r = Except.error (TaxError.InternalError (InternalError.NoSuchGetter id))) ∧
         (∀ v, gm.find_ozw_from_tax_id id = Except.ok (some v) → v.is_set = false →
            r = Except.ok none) ∧
         (∀ v, gm.find_ozw_from_tax_id id = Except.ok (some v) → v.is_set = true →
            v.vtype = ValueType.Bool → r = Except.ok (to_open_closed v)) ∧
         (∀ v, gm.find_ozw_from_tax_id id = Except.ok (some v) → v.is_set = true →
            v.vtype ≠ ValueType.Bool → r = Except.ok (some Value.Unit))) := by
  induction ids with
  | nil => exact ⟨[], rfl, rfl, by simp⟩
  | cons id rest ih =>
    obtain ⟨r, hone, hprops⟩ := fetch_value_one_cases gm id hh
    obtain ⟨out, hout, hlen, hmem⟩ := ih
    refine ⟨(id, r) :: out, ?_, ?_, ?_⟩
    · simp only [fetch_values]
      rw [hone, hout]
    · simp [hlen]
    · intro id2 r2 hm
      rcases List.mem_cons.mp hm with heq | hm2
      · obtain ⟨rfl, rfl⟩ := Prod.mk.injEq .. |>.mp heq
        exact hprops
      · exact hmem id2 r2 hm2

/-- C6 witness: a known set boolean getter and an unknown id. -/
theorem C6_fetch_values_cases_witness :
    ∃ out, fetch_values st1.getter_map [g1, TaxId.new "zz"] = some out ∧
      out.length = [g1, TaxId.new "zz"].length ∧
      ∀ id r, (id, r) ∈ out →
        ((st1.getter_map.find_ozw_from_tax_id id = Except.ok none →
            r = Except.error (TaxError.InternalError (InternalError.NoSuchGetter id))) ∧
         (∀ v, st1.getter_map.find_ozw_from_tax_id id = Except.ok (some v) →
            v.is_set = false → r = Except.ok none) ∧
         (∀ v, st1.getter_map.find_ozw_from_tax_id id = Except.ok (some v) →
            v.is_set = true → v.vtype = ValueType.Bool →
            r = Except.ok (to_open_closed v)) ∧
         (∀ v, st1.getter_map.find_ozw_from_tax_id id = Except.ok (some v) →
            v.is_set = true → v.vtype ≠ ValueType.Bool →
            r = Except.ok (some Value.Unit))) :=
  C6_fetch_values_cases st1.getter_map [g1, TaxId.new "zz"] rfl

/-- C7: registering a watch on a getter id that resolves to an already-set,
boolean-typed driver value pushes exactly one Enter event on the channel,
synchronously within register_watch (the send is part of the call's own
effect list, so it precedes anything the dispatcher later delivers to that
subscription), and the per-id result is Ok with a guard. -/
theorem C7_initial_event (st : AdapterState) (id : TaxId Getter) (r : Option Range)
    (sender : SenderRef) (v : ValueID)
    (hw : st.watchers_healthy = true)
    (hfind : st.getter_map.find_ozw_from_tax_id id = Except.ok (some v))
    (hset : v.is_set = true) (hbool : v.vtype = ValueType.Bool) :
    ∃ st2 g, register_watch st [(id, r)] sender
      = some (st2, [(id, Except.ok g)],
          [Effect.send sender id
            (Value.OpenClosed (if v.bool_val then OpenClosed.Open else OpenClosed.Closed))]) := by
  refine ⟨{ st with watchers := (st.watchers.push id sender).1 },
    (st.watchers.push id sender).2, ?_⟩
  simp only [register_watch, hw, if_true]
  rw [hfind]
  simp [hset, hbool, to_open_closed, ValueID.as_bool]

/-- C7 witness: registering on g1 (set boolean value v1) sends exactly the
open event. -/
theorem C7_initial_event_witness :
    ∃ st2 g, register_watch st1 [(g1, none)] 9
      = some (st2, [(g1, Except.ok g)],
          [Effect.send 9 g1
            (Value.OpenClosed (if v1.bool_val then OpenClosed.Open else OpenClosed.Closed))]) :=
  C7_initial_event st1 g1 none 9 v1 rfl (by decide) rfl rfl

/-- Helper: after appending a weak reference under tax_id, the secondary
index entry for tax_id is the old entry (empty if absent) extended by it. -/
theorem entry_of_upd_self (gm : List (TaxId Getter × List SenderRef))
    (tax_id : TaxId Getter) (a : SenderRef) :
    entry_of (upd_getter_map gm tax_id a) tax_id
      = some ((entry_of gm tax_id).getD [] ++ [a]) := by
  induction gm with
  | nil => simp [upd_getter_map, entry_of]
  | cons p rest ih =>
    obtain ⟨id, vec⟩ := p
    by_cases hid : id = tax_id
    · subst hid
      simp [upd_getter_map, entry_of]
    · simp only [upd_getter_map, if_neg hid]
      rw [show entry_of ((id, vec) :: upd_getter_map rest tax_id a) tax_id
          = entry_of (upd_getter_map rest tax_id a) tax_id from by
        simp [entry_of, List.find?_cons_of_neg, hid]]
      rw [ih]
      congr 1
      simp [entry_of, List.find?_cons_of_neg, hid]

/-- Helper: appending a weak reference under tax_id leaves every other id's
secondary index entry unchanged. -/
theorem entry_of_upd_ne (gm : List (TaxId Getter × List SenderRef))
    (tax_id qid : TaxId Getter) (a : SenderRef) (hne : qid ≠ tax_id) :
    entry_of (upd_getter_map gm tax_id a) qid = entry_of gm qid := by
  induction gm with
  | nil => simp [upd_getter_map, entry_of, List.find?_cons, hne.symm]
  | cons p rest ih =>
    obtain ⟨id, vec⟩ := p
    by_cases hid : id = tax_id
    · subst hid
      simp [upd_getter_map, entry_of, List.find?_cons, Ne.symm hne]
    · simp only [upd_getter_map, if_neg hid]
      by_cases hq : id = qid
      · subst hq
        simp [entry_of, List.find?_cons]
      · simp only [entry_of] at ih ⊢
        rw [List.find?_cons_of_neg _ (by simp [hq]), List.find?_cons_of_neg _ (by simp [hq])]
        exact ih

/-- C2 counterexample: one channel allocation subscribed under two ids in
one call (B first, then A); dropping A's guard satisfies the claim's
hypothesis (no previously-registered subscription under A is live), yet
get_from_tax_id A still returns the channel, because the live subscription
under B keeps the allocation alive and A's stale weak entry still
upgrades. -/
theorem C2_counterexample : ¬ claimC2 := by
  intro h
  have h2 := h wB (TaxId.new "A") 0 (by decide)
  exact absurd h2 (by decide)

/-- C2 amended: dropping the guard of a freshly pushed subscription whose
channel allocation has no other strong reference restores every
get_from_tax_id answer to what it was before the subscription existed: in
particular None for the subscribed id when no other live subscription
exists for it, and Some only due to other live subscriptions.  (When the
allocation is shared with a live subscription under another id, the stale
weak entry still upgrades, so the result for the subscribed id can remain
Some - the counterexample's scenario.) -/
theorem C2_drop_restores (w : Watchers) (tax_id qid : TaxId Getter) (channel : SenderRef)
    (hwf : ∀ p ∈ w.map, p.1 < w.current_index)
    (hdead : w.alive channel = false) :
    ((w.push tax_id channel).2.drop (w.push tax_id channel).1).get_from_tax_id qid
      = w.get_from_tax_id qid := by
  have hmap : ((w.push tax_id channel).2.drop (w.push tax_id channel).1).map = w.map := by
    show (w.map ++ [(w.current_index, channel)]).filter
        (fun p => decide (p.1 ≠ w.current_index)) = w.map
    rw [List.filter_append]
    have h1 : List.filter (fun p => decide (p.1 ≠ w.current_index))
        [(w.current_index, channel)] = [] := by simp
    have h2 : w.map.filter (fun p => decide (p.1 ≠ w.current_index)) = w.map :=
      List.filter_eq_self.mpr (fun p hp => by simpa using Nat.ne_of_lt (hwf p hp))
    rw [h1, h2, List.append_nil]
  have halive : ∀ a, ((w.push tax_id channel).2.drop (w.push tax_id channel).1).alive a
      = w.alive a := by
    intro a
    simp only [Watchers.alive]
    rw [hmap]
  have hgm : ((w.push tax_id channel).2.drop (w.push tax_id channel).1).getter_map
      = upd_getter_map w.getter_map tax_id channel := rfl
  simp only [Watchers.get_from_tax_id, hgm]
  by_cases hq : qid = tax_id
  · subst hq
    rw [entry_of_upd_self]
    cases hent : entry_of w.getter_map qid with
    | none =>
      simp [hent, halive, hdead]
    | some vec =>
      have hsingle : List.filter (fun a => w.alive a) [channel] = [] := by
        simp [hdead]
      simp only [hent, halive, Option.getD_some, Option.some_bind, List.filter_append,
        hsingle, List.append_nil]
  · rw [entry_of_upd_ne _ _ _ _ hq]
    cases hent : entry_of w.getter_map qid with
    | none => simp [hent]
    | some vec => simp [hent, halive]

/-- C2 witness: dropping a fresh, unshared subscription under A restores
the lookup for A (here to None, as wB has no other subscription under A). -/
theorem C2_drop_restores_witness :
    ((wB.push (TaxId.new "A") 5).2.drop
        (wB.push (TaxId.new "A") 5).1).get_from_tax_id (TaxId.new "A")
      = wB.get_from_tax_id (TaxId.new "A") :=
  C2_drop_restores wB (TaxId.new "A") (TaxId.new "A") 5 (by decide) (by decide)

/-- Helper: pushing a subscription records it under its id. -/
theorem recorded_push_self (w : Watchers) (tax_id : TaxId Getter) (a : SenderRef) :
    ((w.push tax_id a).1).recorded tax_id a := by
  refine ⟨(entry_of w.getter_map tax_id).getD [] ++ [a], ?_, ?_⟩
  · exact entry_of_upd_self w.getter_map tax_id a
  · simp

/-- Helper: pushing another subscription preserves every recording. -/
theorem recorded_push_mono (w : Watchers) (tax_id tid : TaxId Getter) (a b : SenderRef)
    (h : w.recorded tid b) : ((w.push tax_id a).1).recorded tid b := by
  obtain ⟨vec, hent, hb⟩ := h
  by_cases hq : tid = tax_id
  · subst hq
    refine ⟨(entry_of w.getter_map tid).getD [] ++ [a],
      entry_of_upd_self w.getter_map tid a, ?_⟩
    rw [hent]
    exact List.mem_append_left _ hb
  · refine ⟨vec, ?_, hb⟩
    show entry_of (upd_getter_map w.getter_map tax_id a) tid = some vec
    rw [entry_of_upd_ne _ _ _ _ hq]
    exact hent

/-- Helper: a successful register_watch call only adds subscriptions, so
every previously recorded subscription stays recorded in the final state. -/
theorem register_watch_recorded_mono (values : List (TaxId Getter × Option Range)) :
    ∀ (st : AdapterState) (sender : SenderRef) (stf : AdapterState)
      (outs : List (TaxId Getter × Except TaxError WatcherGuard)) (effs : List Effect),
      register_watch st values sender = some (stf, outs, effs) →
      ∀ (tid : TaxId Getter) (b : SenderRef),
        st.watchers.recorded tid b → stf.watchers.recorded tid b := by
  induction values with
  | nil =>
    intro st sender stf outs effs h tid b hr
    have h1 : st = stf := congrArg (fun x => x.1) (Option.some.inj h)
    rw [← h1]
    exact hr
  | cons p rest ih =>
    intro st sender stf outs effs h tid b hr
    obtain ⟨id, r⟩ := p
    simp only [register_watch] at h
    split at h
    · split at h
      · exact Option.noConfusion h
      · split at h
        · exact Option.noConfusion h
        · rename_i heq
          have h1 : _ = stf := congrArg (fun x => x.1) (Option.some.inj h)
          rw [← h1]
          exact ih _ sender _ _ _ heq tid b
            (recorded_push_mono st.watchers id tid sender b hr)
    · exact Option.noConfusion h

/-- C10: on healthy locks, register_watch never yields a per-id domain
error: every request (including one whose getter id has no identity-map
entry) gets an Ok result carrying a guard, and every request's subscription
is recorded in the watcher registry's secondary index in the final state. -/
theorem C10_register_watch_always_ok (values : List (TaxId Getter × Option Range))
    (sender : SenderRef) :
    ∀ (st : AdapterState), st.watchers_healthy = true → st.getter_map.healthy = true →
    ∃ stf outs effs, register_watch st values sender = some (stf, outs, effs) ∧
      List.Forall₂ (fun p q => q.1 = p.1 ∧ ∃ g, q.2 = Except.ok g) values outs ∧
      ∀ p ∈ values, stf.watchers.recorded p.1 sender := by
  induction values with
  | nil =>
    intro st _ _
    exact ⟨st, [], [], rfl, List.Forall₂.nil, by simp⟩
  | cons p rest ih =>
    intro st hw hg
    obtain ⟨id, r⟩ := p
    obtain ⟨oz, hoz⟩ : ∃ oz, st.getter_map.find_ozw_from_tax_id id = Except.ok oz := by
      simp [IdMap.find_ozw_from_tax_id, hg]
    obtain ⟨stf, outs, effs, hrec, hfa, hrecd⟩ :=
      ih { st with watchers := (st.watchers.push id sender).1 } hw hg
    have hmemrec : ∀ q ∈ (id, r) :: rest, stf.watchers.recorded q.1 sender := by
      intro q hq
      rcases List.mem_cons.mp hq with heq | hq2
      · subst heq
        exact register_watch_recorded_mono rest _ sender stf outs effs hrec id sender
          (recorded_push_self st.watchers id sender)
      · exact hrecd q hq2
    simp only [hw] at hrec
    cases oz with
    | none =>
      refine ⟨stf, (id, Except.ok (st.watchers.push id sender).2) :: outs, [] ++ effs,
        ?_, List.Forall₂.cons ⟨rfl, ⟨_, rfl⟩⟩ hfa, hmemrec⟩
      simp only [register_watch, hw, if_true]
      simp only [hoz, hrec]
    | some value =>
      refine ⟨stf, (id, Except.ok (st.watchers.push id sender).2) :: outs,
        (if value.is_set && decide (value.vtype = ValueType.Bool) then
          match to_open_closed value with
          | some v => [Effect.send sender id v]
          | none => []
        else []) ++ effs,
        ?_, List.Forall₂.cons ⟨rfl, ⟨_, rfl⟩⟩ hfa, hmemrec⟩
      simp only [register_watch, hw, if_true]
      simp only [hoz, hrec]

/-- C10 witness: a single request for an id with no getter-map entry. -/
theorem C10_register_watch_always_ok_witness :
    ∃ stf outs effs,
      register_watch st1 [(TaxId.new "unknown", (none : Option Range))] 3
        = some (stf, outs, effs) ∧
      List.Forall₂ (fun p q => q.1 = p.1 ∧ ∃ g, q.2 = Except.ok g)
        [(TaxId.new "unknown", (none : Option Range))] outs ∧
      ∀ p ∈ [(TaxId.new "unknown", (none : Option Range))], stf.watchers.recorded p.1 3 :=
  C10_register_watch_always_ok [(TaxId.new "unknown", none)] 3 st1 rfl rfl
